import Mathlib

/-!
Verification of the chat application core (`src/app.py`): persistence store,
block registry, delivery engine (`handle_message`), the block/unblock HTTP
operations, and the socket connect/disconnect handlers.

The embedding models the SQLite-backed state as explicit lists:
the `Message` table, the `BlockedUser` table (whose schema declares the
`blocked` column alone as primary key), and the auto-increment id counter.
Server time is passed in as a `now : Nat` argument to the message handler,
standing for the `current_timestamp` default of the `timestamp` column.
-/

/-- A row of the `Message` table: `id` auto-assigned, `message` and
`file_path` nullable columns, `timestamp` server-assigned at insert. -/
structure MessageRecord where
  id : Nat
  sender : String
  receiver : String
  message : Option String
  file_path : Option String
  timestamp : Nat
deriving Repr, DecidableEq

/-- A row of the `BlockedUser` table: columns `blocker` and `blocked`,
with `blocked` alone declared `primary_key=True` in the schema. -/
structure BlockRecord where
  blocker : String
  blocked : String
deriving Repr, DecidableEq

/-- The database state: the message table, the block table and the
auto-increment counter for `Message.id`. -/
structure ChatState where
  messages : List MessageRecord
  blocks : List BlockRecord
  nextId : Nat
deriving Repr, DecidableEq

/-- The state right after `db.create_all()` on a fresh database. -/
def initialState : ChatState := { messages := [], blocks := [], nextId := 1 }

/-- The function `is_blocked(sender, receiver)` from `app.py` lines 49-56:
`BlockedUser.query.filter_by(blocker=sender, blocked=receiver).first()`
and the result is `first() is not None`. Note the filter uses
`blocker=sender, blocked=receiver` with the parameters in THIS order. -/
def is_blocked (blocks : List BlockRecord) (sender receiver : String) : Bool :=
  (blocks.find? (fun b => b.blocker == sender && b.blocked == receiver)).isSome

/-- Storage-layer failure: the SQLite integrity error raised when an insert
violates the primary-key constraint of the `BlockedUser` table. -/
inductive StorageError where
  | integrityError
deriving Repr, DecidableEq

/-- The `/block` route `block_user` (`app.py` lines 59-68): inserts a
`BlockedUser(blocker, blocked)` row and commits, returning the success
acknowledgment with HTTP 200.  Because the schema makes `blocked` alone the
primary key, a commit whose `blocked` value duplicates an existing row
raises an integrity error instead of inserting. -/
def block_user (st : ChatState) (blocker blocked : String) :
    Except StorageError (ChatState × (String × Nat)) :=
  if st.blocks.any (fun b => b.blocked == blocked) then
    .error .integrityError
  else
    .ok ({ st with blocks := st.blocks ++ [{ blocker := blocker, blocked := blocked }] },
         ("User blocked successfully", 200))

/-- The `/unblock` route `unblock_user` (`app.py` lines 70-78): deletes every
`BlockedUser` row matching the exact (blocker, blocked) pair and commits,
returning the success acknowledgment with HTTP 200 whether or not any row
matched. -/
def unblock_user (st : ChatState) (blocker blocked : String) :
    ChatState × (String × Nat) :=
  ({ st with
      blocks := st.blocks.filter (fun b => !(b.blocker == blocker && b.blocked == blocked)) },
   ("User unblocked successfully", 200))

/-- An inbound socket `message` event payload.  `none` in a field means the
key is absent from the `data` dictionary. -/
structure MessageEvent where
  sender : Option String
  receiver : Option String
  message : Option String
  file_path : Option String
deriving Repr, DecidableEq

/-- One `emit` performed by the server: the socket event name, the payload
(re-broadcast verbatim), and the room it is addressed to. -/
structure EmitRecord where
  event : String
  payload : MessageEvent
  room : String
deriving Repr, DecidableEq

/-- The socket handler `handle_message` (`app.py` lines 81-109) mirrors the source exactly:
`data.get` reads, `file_path` defaulting to `''`, the falsy check
`if not sender or not receiver: return`, the block check
`is_blocked(receiver, sender)` (arguments swapped at the call site), the
insert of `Message(sender, receiver, message, file_path)` with auto id and
server timestamp, and the final `emit(new_message, data, room=receiver)`.
Returns the new database state and the list of emits performed. -/
def handle_message (st : ChatState) (now : Nat) (data : MessageEvent) :
    ChatState × List EmitRecord :=
  match data.sender, data.receiver with
  | some s, some r =>
    if s == "" || r == "" then (st, [])
    else if is_blocked st.blocks r s then (st, [])
    else
      let newMsg : MessageRecord :=
        { id := st.nextId, sender := s, receiver := r,
          message := data.message,
          file_path := some (data.file_path.getD ""),
          timestamp := now }
      ({ st with messages := st.messages ++ [newMsg], nextId := st.nextId + 1 },
       [{ event := "new_message", payload := data, room := r }])
  | _, _ => (st, [])

/-- The session directory: username to live session handle bindings. -/
abbrev SessionDir := List (String × Nat)

/-- Resolution of a username to its live session handle, if any. -/
def resolve (dir : SessionDir) (u : String) : Option Nat :=
  (List.find? (fun p => p.1 == u) dir).map (fun p => p.2)

/-- The connect handler `handle_connect` (`app.py` lines 112-114): the body is a single
`print('User connected')`; it mutates no state. -/
def handle_connect (dir : SessionDir) : SessionDir := dir

/-- The disconnect handler `handle_disconnect` (`app.py` lines 117-119): the body is a single
`print('User disconnected')`; it mutates no state. -/
def handle_disconnect (dir : SessionDir) : SessionDir := dir

/-- The sessions an `emit` actually reaches: those registered under the
room it is addressed to.  Emitting to a room with no members delivers to
nobody and raises no error. -/
def deliverEmit (dir : SessionDir) (e : EmitRecord) : List Nat :=
  (List.filter (fun p => p.1 == e.room) dir).map (fun p => p.2)

/-- States reachable from the fresh database through the operations of the
application: blocking (when it succeeds), unblocking, and message events. -/
inductive Reachable : ChatState → Prop where
  | init : Reachable initialState
  | blockStep (st st' : ChatState) (blocker blocked : String) (ack : String × Nat) :
      Reachable st → block_user st blocker blocked = .ok (st', ack) → Reachable st'
  | unblockStep (st : ChatState) (blocker blocked : String) :
      Reachable st → Reachable (unblock_user st blocker blocked).1
  | messageStep (st : ChatState) (now : Nat) (data : MessageEvent) :
      Reachable st → Reachable (handle_message st now data).1

/-- Uniqueness invariant of the block table: each `blocked` value appears in
at most one row (it is the primary key). -/
def blocksUnique (st : ChatState) : Prop :=
  st.blocks.Pairwise (fun a b => a.blocked ≠ b.blocked)

/-! ### Basic lemmas -/

/-- Characterisation of `is_blocked` as an existence statement over the block table. -/
theorem is_blocked_iff (blocks : List BlockRecord) (s r : String) :
    is_blocked blocks s r = true ↔ ∃ b ∈ blocks, b.blocker = s ∧ b.blocked = r := by
  simp [is_blocked, List.find?_isSome, Bool.and_eq_true, beq_iff_eq]

/-- Membership of the exact record in the block table, via structure eta. -/
theorem is_blocked_iff_mem (blocks : List BlockRecord) (s r : String) :
    is_blocked blocks s r = true ↔ ({ blocker := s, blocked := r } : BlockRecord) ∈ blocks := by
  rw [is_blocked_iff]
  constructor
  · rintro ⟨b, hb, h1, h2⟩
    have : b = { blocker := s, blocked := r } := by
      cases b; simp_all
    rwa [this] at hb
  · intro h
    exact ⟨_, h, rfl, rfl⟩

/-- The handler `handle_message` leaves the block table untouched in every branch. -/
theorem handle_message_blocks_eq (st : ChatState) (now : Nat) (data : MessageEvent) :
    (handle_message st now data).1.blocks = st.blocks := by
  rcases data with ⟨os, or, m, fp⟩
  cases os <;> cases or <;> unfold handle_message
  · rfl
  · rfl
  · rfl
  · dsimp only
    split
    · rfl
    · split <;> rfl

/-! ### Claim theorems -/

/-- Claim C1: for every inbound message event whose sender and receiver are
non-empty, if a block record with blocker = receiver and blocked = sender
exists, the handler persists nothing, emits nothing, and the store is
unchanged. -/
theorem blocked_message_leaves_no_trace
    (st : ChatState) (now : Nat) (data : MessageEvent) (s r : String)
    (hs : data.sender = some s) (hsne : s ≠ "")
    (hr : data.receiver = some r) (hrne : r ≠ "")
    (hb : ∃ b ∈ st.blocks, b.blocker = r ∧ b.blocked = s) :
    handle_message st now data = (st, []) := by
  have hblk : is_blocked st.blocks r s = true := (is_blocked_iff st.blocks r s).mpr hb
  unfold handle_message
  rw [hs, hr]
  simp [hsne, hrne, hblk]

/-- Witness for C1 at a concrete blocked pair. -/
theorem blocked_message_leaves_no_trace_witness :
    handle_message
      { messages := [], blocks := [{ blocker := "B", blocked := "A" }], nextId := 1 }
      5 { sender := some "A", receiver := some "B", message := some "hi", file_path := none } =
    ({ messages := [], blocks := [{ blocker := "B", blocked := "A" }], nextId := 1 }, []) :=
  blocked_message_leaves_no_trace _ 5 _ "A" "B" rfl (by decide) rfl (by decide)
    ⟨{ blocker := "B", blocked := "A" }, by simp, rfl, rfl⟩

/-- Counterexample to claim C2 as stated: with the block table holding the
single row (blocker = "B", blocked = "A"), the claim predicts
`is_blocked("A", "B")` is true (a row with blocker = receiver = "B" and
blocked = sender = "A" exists), but the source filters with
`blocker=sender, blocked=receiver` and returns false. -/
theorem is_blocked_direction_counterexample :
    ¬ (is_blocked [{ blocker := "B", blocked := "A" }] "A" "B" = true ↔
        ∃ b ∈ [({ blocker := "B", blocked := "A" } : BlockRecord)],
          b.blocker = "B" ∧ b.blocked = "A") := by
  intro h
  have : is_blocked [{ blocker := "B", blocked := "A" }] "A" "B" = true :=
    h.mpr ⟨{ blocker := "B", blocked := "A" }, by simp, rfl, rfl⟩
  simp [is_blocked, List.find?] at this

/-- Claim C2 amended: `is_blocked(sender, receiver)` returns true iff a
block record exists with blocker = sender and blocked = receiver (the
source filters `blocker=sender, blocked=receiver`; the receiver-blocks-
sender direction is obtained at the call site, which swaps the arguments). -/
theorem is_blocked_spec (blocks : List BlockRecord) (sender receiver : String) :
    is_blocked blocks sender receiver = true ↔
      ∃ b ∈ blocks, b.blocker = sender ∧ b.blocked = receiver :=
  is_blocked_iff blocks sender receiver

/-- Claim C3: end-to-end block direction.  A message event from sender A to
receiver B (both non-empty) is suppressed (state unchanged, no emit) iff the
exact record the block operation inserts for blocker = B, blocked = A is
present in the store; and the block operation, when it succeeds, does insert
that record. -/
theorem block_direction_end_to_end
    (st : ChatState) (now : Nat) (data : MessageEvent) (A B : String)
    (hs : data.sender = some A) (hsne : A ≠ "")
    (hr : data.receiver = some B) (hrne : B ≠ "") :
    (handle_message st now data = (st, []) ↔
        ({ blocker := B, blocked := A } : BlockRecord) ∈ st.blocks) ∧
    (∀ st1 st2 ack, block_user st1 B A = .ok (st2, ack) →
        ({ blocker := B, blocked := A } : BlockRecord) ∈ st2.blocks) := by
  constructor
  · constructor
    · intro heq
      by_contra hmem
      have hblk : is_blocked st.blocks B A = false := by
        cases hbl : is_blocked st.blocks B A with
        | false => rfl
        | true => exact absurd ((is_blocked_iff_mem _ _ _).mp hbl) hmem
      unfold handle_message at heq
      rw [hs, hr] at heq
      simp [hsne, hrne, hblk] at heq
    · intro hmem
      have hblk : is_blocked st.blocks B A = true := (is_blocked_iff_mem _ _ _).mpr hmem
      unfold handle_message
      rw [hs, hr]
      simp [hsne, hrne, hblk]
  · intro st1 st2 ack hok
    unfold block_user at hok
    split at hok
    · exact absurd hok (by simp)
    · simp at hok
      rw [← hok.1]
      simp

/-- Witness for C3 at a concrete pair: the message is suppressed exactly
when the block record is present. -/
theorem block_direction_end_to_end_witness :
    (handle_message
        { messages := [], blocks := [{ blocker := "B", blocked := "A" }], nextId := 1 }
        7 { sender := some "A", receiver := some "B", message := none, file_path := none } =
      ({ messages := [], blocks := [{ blocker := "B", blocked := "A" }], nextId := 1 }, [])) := by
  exact (block_direction_end_to_end
    { messages := [], blocks := [{ blocker := "B", blocked := "A" }], nextId := 1 }
    7 { sender := some "A", receiver := some "B", message := none, file_path := none }
    "A" "B" rfl (by decide) rfl (by decide)).1.mpr (by simp)

/-- The successful path of `handle_message`: valid fields and no block give
exactly one appended record with the event's fields, an incremented id
counter, and exactly one emit of the verbatim payload to the receiver's
room. -/
theorem handle_message_ok
    (st : ChatState) (now : Nat) (data : MessageEvent) (s r : String)
    (hs : data.sender = some s) (hsne : s ≠ "")
    (hr : data.receiver = some r) (hrne : r ≠ "")
    (hnb : is_blocked st.blocks r s = false) :
    handle_message st now data =
      ({ st with
          messages := st.messages ++
            [{ id := st.nextId, sender := s, receiver := r,
               message := data.message,
               file_path := some (data.file_path.getD ""),
               timestamp := now }],
          nextId := st.nextId + 1 },
       [{ event := "new_message", payload := data, room := r }]) := by
  unfold handle_message
  rw [hs, hr]
  simp [hsne, hrne, hnb]

/-- Claim C4: a valid, non-blocked message event persists exactly one
record carrying the event's sender, receiver and message, whose id and
timestamp are non-decreasing relative to every previously persisted record
(given that prior ids are below the auto-increment counter and prior
timestamps do not exceed the server clock). -/
theorem valid_message_persisted_once
    (st : ChatState) (now : Nat) (data : MessageEvent) (s r : String)
    (hs : data.sender = some s) (hsne : s ≠ "")
    (hr : data.receiver = some r) (hrne : r ≠ "")
    (hnb : is_blocked st.blocks r s = false)
    (hinv : ∀ m ∈ st.messages, m.id < st.nextId ∧ m.timestamp ≤ now) :
    ∃ rec : MessageRecord,
      (handle_message st now data).1.messages = st.messages ++ [rec] ∧
      rec.sender = s ∧ rec.receiver = r ∧ rec.message = data.message ∧
      ∀ m ∈ st.messages, m.id ≤ rec.id ∧ m.timestamp ≤ rec.timestamp := by
  have h := handle_message_ok st now data s r hs hsne hr hrne hnb
  refine ⟨_, by rw [h], rfl, rfl, rfl, ?_⟩
  intro m hm
  exact ⟨Nat.le_of_lt (hinv m hm).1, (hinv m hm).2⟩

/-- Witness for C4 on the fresh database. -/
theorem valid_message_persisted_once_witness :
    ∃ rec : MessageRecord,
      (handle_message initialState 3
          { sender := some "A", receiver := some "B",
            message := some "hi", file_path := none }).1.messages =
        initialState.messages ++ [rec] ∧
      rec.sender = "A" ∧ rec.receiver = "B" ∧ rec.message = some "hi" ∧
      ∀ m ∈ initialState.messages, m.id ≤ rec.id ∧ m.timestamp ≤ rec.timestamp :=
  valid_message_persisted_once initialState 3
    { sender := some "A", receiver := some "B", message := some "hi", file_path := none }
    "A" "B" rfl (by decide) rfl (by decide) (by decide)
    (by intro m hm; simp [initialState] at hm)

/-- Claim C5: a message event with missing or empty sender or receiver
persists nothing and returns with the store unchanged and no emit, for
EVERY store state — in particular for every content of the block table, so
the outcome is decided before the block check is reached. -/
theorem invalid_message_short_circuits
    (st : ChatState) (now : Nat) (data : MessageEvent)
    (h : data.sender = none ∨ data.sender = some "" ∨
         data.receiver = none ∨ data.receiver = some "") :
    handle_message st now data = (st, []) := by
  unfold handle_message
  rcases h with h | h | h | h
  · rw [h]
  · rw [h]
    cases data.receiver with
    | none => rfl
    | some r => simp
  · rw [h]
    cases data.sender with
    | none => rfl
    | some s => rfl
  · rw [h]
    cases data.sender with
    | none => rfl
    | some s => simp

/-- Witness for C5: missing sender. -/
theorem invalid_message_short_circuits_witness :
    handle_message
      { messages := [], blocks := [{ blocker := "B", blocked := "A" }], nextId := 1 } 0
      { sender := none, receiver := some "B", message := some "hi", file_path := none } =
    ({ messages := [], blocks := [{ blocker := "B", blocked := "A" }], nextId := 1 }, []) :=
  invalid_message_short_circuits _ 0 _ (Or.inl rfl)

/-- Claim C6: unblock is idempotent.  Applying unblock twice to the same
pair yields exactly the state and acknowledgment of applying it once, after
one application no matching record remains, and the (second) application
returns the same success acknowledgment with HTTP 200. -/
theorem unblock_idempotent (st : ChatState) (blocker blocked : String) :
    unblock_user (unblock_user st blocker blocked).1 blocker blocked =
      unblock_user st blocker blocked ∧
    ({ blocker := blocker, blocked := blocked } : BlockRecord) ∉
      (unblock_user st blocker blocked).1.blocks ∧
    (unblock_user (unblock_user st blocker blocked).1 blocker blocked).2 =
      ("User unblocked successfully", 200) := by
  refine ⟨?_, ?_, rfl⟩
  · unfold unblock_user
    simp [List.filter_filter]
  · intro hmem
    unfold unblock_user at hmem
    simp [List.mem_filter] at hmem

/-- Counterexample to claim C7 as stated: the connect handler registers
nothing (after a connect on an empty directory, no username resolves to a
session) and the disconnect handler unregisters nothing (a registered
binding survives a disconnect).  The source handlers only print. -/
theorem connect_registers_nothing_counterexample :
    resolve (handle_connect []) "A" = none ∧
    resolve (handle_disconnect [("A", 1)]) "A" = some 1 := by
  exact ⟨rfl, by decide⟩

/-- Claim C7 amended: the connect and disconnect handlers perform no
session-directory mutation at all — they only log.  The directory, and
every username resolution, is unchanged by both handlers. -/
theorem connect_disconnect_no_registration (dir : SessionDir) :
    handle_connect dir = dir ∧ handle_disconnect dir = dir ∧
    ∀ u, resolve (handle_connect dir) u = resolve dir u ∧
         resolve (handle_disconnect dir) u = resolve dir u :=
  ⟨rfl, rfl, fun _ => ⟨rfl, rfl⟩⟩

/-- An emit addressed to a room with no resolvable session reaches nobody. -/
theorem resolve_none_deliver_empty (dir : SessionDir) (e : EmitRecord)
    (h : resolve dir e.room = none) : deliverEmit dir e = [] := by
  unfold resolve at h
  unfold deliverEmit
  rw [Option.map_eq_none', List.find?_eq_none] at h
  rw [List.map_eq_nil_iff, List.filter_eq_nil_iff]
  exact h

/-- Claim C8: best-effort delivery.  A valid, non-blocked message event
whose receiver has no live session still persists exactly one record with
the event's fields, completes with the normal successful result (one emit
to the receiver's room), and that emit reaches no session — no delivery
error exists in the model, matching the source, where emitting to an empty
room is a silent no-op. -/
theorem best_effort_delivery
    (st : ChatState) (now : Nat) (data : MessageEvent) (dir : SessionDir) (s r : String)
    (hs : data.sender = some s) (hsne : s ≠ "")
    (hr : data.receiver = some r) (hrne : r ≠ "")
    (hnb : is_blocked st.blocks r s = false)
    (hoff : resolve dir r = none) :
    (handle_message st now data).1.messages =
      st.messages ++ [{ id := st.nextId, sender := s, receiver := r,
                        message := data.message,
                        file_path := some (data.file_path.getD ""),
                        timestamp := now }] ∧
    (handle_message st now data).2 =
      [{ event := "new_message", payload := data, room := r }] ∧
    ∀ e ∈ (handle_message st now data).2, deliverEmit dir e = [] := by
  have h := handle_message_ok st now data s r hs hsne hr hrne hnb
  refine ⟨by rw [h], by rw [h], ?_⟩
  intro e he
  rw [h] at he
  simp at he
  subst he
  exact resolve_none_deliver_empty dir _ hoff

/-- Witness for C8: receiver "C" never connected. -/
theorem best_effort_delivery_witness :
    (handle_message initialState 4
        { sender := some "A", receiver := some "C",
          message := some "hi", file_path := none }).1.messages =
      initialState.messages ++
        [{ id := initialState.nextId, sender := "A", receiver := "C",
           message := some "hi", file_path := some "", timestamp := 4 }] ∧
    (handle_message initialState 4
        { sender := some "A", receiver := some "C",
          message := some "hi", file_path := none }).2 =
      [{ event := "new_message",
         payload := { sender := some "A", receiver := some "C",
                      message := some "hi", file_path := none },
         room := "C" }] ∧
    ∀ e ∈ (handle_message initialState 4
        { sender := some "A", receiver := some "C",
          message := some "hi", file_path := none }).2,
      deliverEmit [("A", 1)] e = [] :=
  best_effort_delivery initialState 4
    { sender := some "A", receiver := some "C", message := some "hi", file_path := none }
    [("A", 1)] "A" "C" rfl (by decide) rfl (by decide) (by decide) (by decide)

/-- Claim C9: the block-table uniqueness invariant.  In every reachable
store state a given `blocked` value appears in at most one block record
(the `blocked` column alone is the primary key), and inserting a block
whose `blocked` value duplicates an existing record's fails with the
storage integrity error instead of inserting a second record. -/
theorem block_table_blocked_unique :
    (∀ st, Reachable st → blocksUnique st) ∧
    (∀ (st : ChatState) (c d : String), (∃ b ∈ st.blocks, b.blocked = d) →
      block_user st c d = .error .integrityError) := by
  constructor
  · intro st h
    induction h with
    | init => simp [blocksUnique, initialState]
    | blockStep st st' blocker blocked ack _ hok ih =>
      unfold block_user at hok
      split at hok
      · exact absurd hok (by simp)
      · rename_i hnone
        simp only [Except.ok.injEq, Prod.mk.injEq] at hok
        rw [← hok.1]
        unfold blocksUnique at ih ⊢
        simp only
        rw [List.pairwise_append]
        refine ⟨ih, List.pairwise_singleton _ _, ?_⟩
        intro a ha b hb
        simp only [List.mem_singleton] at hb
        subst hb
        intro hcontra
        apply hnone
        simp only [List.any_eq_true, beq_iff_eq]
        exact ⟨a, ha, hcontra⟩
    | unblockStep st blocker blocked _ ih =>
      unfold blocksUnique at ih ⊢
      unfold unblock_user
      simp only
      exact List.Pairwise.sublist (List.filter_sublist _) ih
    | messageStep st now data _ ih =>
      unfold blocksUnique at ih ⊢
      rw [handle_message_blocks_eq]
      exact ih
  · intro st c d hex
    have hany : st.blocks.any (fun b => b.blocked == d) = true := by
      simp only [List.any_eq_true, beq_iff_eq]
      exact hex
    simp [block_user, hany]

/-- Witness for C9: the fresh store satisfies the invariant, and adding a
second blocker for an already-blocked identity fails. -/
theorem block_table_blocked_unique_witness :
    blocksUnique initialState ∧
    block_user { messages := [], blocks := [{ blocker := "B", blocked := "A" }], nextId := 1 }
      "C" "A" = .error .integrityError :=
  ⟨block_table_blocked_unique.1 initialState Reachable.init,
   block_table_blocked_unique.2
     { messages := [], blocks := [{ blocker := "B", blocked := "A" }], nextId := 1 }
     "C" "A" ⟨{ blocker := "B", blocked := "A" }, by simp, rfl⟩⟩

/-- Claim C10: the two optional event fields are defaulted differently.
For every valid, non-blocked event that omits `file_path` — whether or not
it carries a `message` — the persisted record's `file_path` is the empty
string, not null; and whenever the `message` field is omitted, it is
persisted as null. -/
theorem omitted_field_defaults
    (st : ChatState) (now : Nat) (data : MessageEvent) (s r : String)
    (hs : data.sender = some s) (hsne : s ≠ "")
    (hr : data.receiver = some r) (hrne : r ≠ "")
    (hnb : is_blocked st.blocks r s = false)
    (hfp : data.file_path = none) :
    ∃ rec : MessageRecord,
      (handle_message st now data).1.messages = st.messages ++ [rec] ∧
      rec.file_path = some "" ∧ rec.file_path ≠ none ∧
      (data.message = none → rec.message = none) := by
  have h := handle_message_ok st now data s r hs hsne hr hrne hnb
  refine ⟨_, by rw [h], ?_, ?_, ?_⟩
  · simp [hfp]
  · simp [hfp]
  · intro hm
    simp [hm]

/-- Witness for C10: `file_path` omitted while a `message` is present — the
record still gets the empty-string `file_path`. -/
theorem omitted_field_defaults_witness :
    ∃ rec : MessageRecord,
      (handle_message initialState 2
          { sender := some "A", receiver := some "B",
            message := some "hi", file_path := none }).1.messages =
        initialState.messages ++ [rec] ∧
      rec.file_path = some "" ∧ rec.file_path ≠ none ∧
      (({ sender := some "A", receiver := some "B",
          message := some "hi", file_path := none } : MessageEvent).message = none →
        rec.message = none) :=
  omitted_field_defaults initialState 2
    { sender := some "A", receiver := some "B", message := some "hi", file_path := none }
    "A" "B" rfl (by decide) rfl (by decide) (by decide) rfl
